import Mathlib

/-!
Shallow embedding of the nrfis mobile front-end components
(Model.js, Screen.js, Chart.js) and proofs about them.

Numbers are modelled as rationals: every JavaScript double that the code
can actually produce is a (dyadic) rational, and no claim depends on
rounding.  Where JavaScript can produce Infinity (Math.min over an empty
argument list), the embedding uses WithTop / WithBot to carry the
infinite value explicitly.  JavaScript undefined from an out-of-range
index or a missing object key is modelled with Option.
-/

namespace Nrfis

/-! ## Definitions: Model.js, the 3D model component -/

/-- A colour as produced by mapColour in Model.js: either the template
string hsl(hue,saturation%,lightness%) or the literal string grey. -/
inductive Colour where
  | hsl (hue saturation lightness : ℚ)
  | grey
deriving DecidableEq

/-- mapColour from Model.js.  scale is props.modelOptions.scale, a pair
[min, max].  Returns the hsl string for values strictly inside the scale
and grey otherwise. -/
def mapColour (scale : ℚ × ℚ) (value : ℚ) : Colour :=
  let min := scale.1
  let max := scale.2
  if value < max ∧ value > min then
    Colour.hsl ((1 - (value - min) / (max - min)) * 270) 100 50
  else
    Colour.grey

/-- THREE.Euler as used by Model.js: the code only ever passes the first
two components, so the third defaults to 0 (as in the THREE constructor). -/
structure Euler where
  x : ℚ
  y : ℚ
  z : ℚ
deriving DecidableEq

/-- new THREE.Euler(a, b): the z component defaults to 0. -/
def mkEuler (x y : ℚ) : Euler := ⟨x, y, 0⟩

/-- The interaction state of the Model component: the useState hooks
rotation, zoom and baseZoom.  (index and sensorColours play no part in
the gesture claims.) -/
structure ModelSt where
  rotation : Euler
  zoom : ℚ
  baseZoom : ℚ
deriving DecidableEq

/-- Initial Model state: rotation Euler(0, 0), zoom 1, baseZoom 1. -/
def initialModelSt : ModelSt := { rotation := mkEuler 0 0, zoom := 1, baseZoom := 1 }

/-- handlePinchGestureEvent from Model.js.  scaleSqrt stands for
event.scale ** 0.5; as event.scale ranges over the nonnegative doubles
its square root ranges over (dyadic) rationals, so the argument is an
arbitrary rational.  The update is applied only when the new zoom differs
from the current one by more than 0.02 and lies strictly between 0.2
and 5. -/
def handlePinchGestureEvent (st : ModelSt) (scaleSqrt : ℚ) : ModelSt :=
  let newZoom := st.baseZoom * scaleSqrt
  if |newZoom - st.zoom| > 1/50 ∧ newZoom > 1/5 ∧ newZoom < 5 then
    { st with zoom := newZoom }
  else
    st

/-- The touch events the Model component reacts to. -/
inductive ModelEvent where
  | pinch (scaleSqrt : ℚ)
  | pinchEnd
  | drag (dx dy : ℚ)
  | reset
deriving DecidableEq

/-- One step of the Model interaction: pinch runs
handlePinchGestureEvent; pinchEnd is handleStateChange with
oldState == ACTIVE (setBaseZoom(zoom)); drag is handleResponderMove,
adding the page-coordinate deltas divided by 200 to the rotation;
reset is the Reset button (rotation Euler(0,0), zoom 1, baseZoom 1). -/
def modelStep (st : ModelSt) : ModelEvent → ModelSt
  | ModelEvent.pinch s => handlePinchGestureEvent st s
  | ModelEvent.pinchEnd => { st with baseZoom := st.zoom }
  | ModelEvent.drag dx dy =>
      { st with rotation := mkEuler (st.rotation.x + dy / 200) (st.rotation.y + dx / 200) }
  | ModelEvent.reset => { rotation := mkEuler 0 0, zoom := 1, baseZoom := 1 }

/-- Run the Model component from its initial state over a sequence of
touch events. -/
def runModel (events : List ModelEvent) : ModelSt :=
  events.foldl modelStep initialModelSt

/-! ## Definitions: Chart.js, the time-series chart component -/

/-- Math.min applied to a spread list of rationals: the fold starts at
Infinity (the value of Math.min with no arguments), modelled as the top
element of WithTop. -/
def jsMinTop (l : List ℚ) : WithTop ℚ :=
  l.foldl (fun m x => min m (x : WithTop ℚ)) ⊤

/-- The minInterval computation of the timestamps useEffect in Chart.js:
timestamps.map((t, index) => index ? t - timestamps[index - 1] : null)
followed by slice(1) yields exactly the list of consecutive differences,
and Math.min of that spread list.  For fewer than two timestamps the
difference list is empty and the result is Infinity. -/
def minIntervalOf (timestamps : List ℚ) : WithTop ℚ :=
  jsMinTop ((timestamps.zip (timestamps.drop 1)).map fun p => p.2 - p.1)

/-- The interaction state of the Chart component: the useState hooks the
gesture handlers read and write.  datasets is omitted (it plays no part
in the gesture claims). -/
structure ChartSt where
  timestamps : List ℚ
  width : ℚ
  minX : ℚ
  maxX : ℚ
  baseRange : ℚ × ℚ
  minInterval : WithTop ℚ
deriving DecidableEq

/-- handleResponderMove from Chart.js.  dx stands for the page-x delta
currentPageX - previousPageX of the active touch.  The shifted window is
applied only when it still lies between timestamps[0] and the last
timestamp; an out-of-range index yields undefined and the comparison is
then false, so an empty timestamp list never updates. -/
def handleChartResponderMove (st : ChartSt) (dx : ℚ) : ChartSt :=
  let change := dx / st.width * (st.baseRange.2 - st.baseRange.1)
  let newMinX := st.minX - change
  let newMaxX := st.maxX - change
  match st.timestamps.head?, st.timestamps.getLast? with
  | some t0, some tl =>
      if newMinX ≥ t0 ∧ newMaxX ≤ tl then
        { st with minX := newMinX, maxX := newMaxX }
      else
        st
  | _, _ => st

/-- handlePinchGestureEvent from Chart.js.  The guard rejects the pinch
when the proposed window is narrower than two minimum sampling intervals
or when the width change is below 1 percent of the base range; otherwise
each endpoint is moved independently when it stays inside the data. -/
def handleChartPinch (st : ChartSt) (scale focalX : ℚ) : ChartSt :=
  let oldRange := st.baseRange.2 - st.baseRange.1
  let newRange := oldRange * (1 / scale)
  let change := newRange - oldRange
  let focalPoint := focalX / st.width
  let newMinX := st.minX - change * focalPoint
  let newMaxX := st.maxX + change * (1 - focalPoint)
  if ((newMaxX - newMinX : ℚ) : WithTop ℚ) < 2 * st.minInterval ∨
      |change| < oldRange / 100 then
    st
  else
    let st1 :=
      match st.timestamps.head? with
      | some t0 => if newMinX ≥ t0 then { st with minX := newMinX } else st
      | none => st
    match st.timestamps.getLast? with
    | some tl => if newMaxX ≤ tl then { st1 with maxX := newMaxX } else st1
    | none => st1

/-- The rejection guard of handleChartPinch, as a boolean: the proposed
window is narrower than 2 * minInterval, or the width change is below
1 percent of the base range. -/
def chartPinchRejected (st : ChartSt) (scale focalX : ℚ) : Bool :=
  let oldRange := st.baseRange.2 - st.baseRange.1
  let newRange := oldRange * (1 / scale)
  let change := newRange - oldRange
  let focalPoint := focalX / st.width
  let newMinX := st.minX - change * focalPoint
  let newMaxX := st.maxX + change * (1 - focalPoint)
  decide (((newMaxX - newMinX : ℚ) : WithTop ℚ) < 2 * st.minInterval) ||
    decide (|change| < oldRange / 100)

/-! ## Definitions: Screen.js, the WebSocket live-data handlers -/

/-- A live-data sample as decoded from a JSON message: a finite map from
sensor names to values, kept as the decoded association list. -/
abbrev LiveSample := List (String × ℚ)

/-- JavaScript property access data[key] on a parsed JSON object:
returns undefined (none) when the key is absent. -/
def jsLookup (assoc : List (String × LiveSample)) (key : String) : Option LiveSample :=
  (assoc.find? fun p => p.1 == key).map Prod.snd

/-- ws.onmessage from Screen.js.  The message text has been parsed by
JSON.parse into an association list; the handler selects the entry keyed
by props.packageServerName (possibly undefined) and either appends it or,
when the buffer already holds more than 30 samples, restarts the buffer
with just that sample. -/
def wsOnMessage (packageServerName : String) (message : List (String × LiveSample))
    (liveData : List (Option LiveSample)) : List (Option LiveSample) :=
  let newSample := jsLookup message packageServerName
  if liveData.length > 30 then [newSample] else liveData ++ [newSample]

/-- The WebSocket and live-data buffer state of Screen.js. -/
structure WsState where
  socketOpen : Bool
  liveData : List (Option LiveSample)
deriving DecidableEq

/-- The cleanup function returned by the WebSocket useEffect: it runs
when liveMode turns off or the data type changes, closes the socket and
resets liveData to the empty list. -/
def wsCleanup (_st : WsState) : WsState :=
  { socketOpen := false, liveData := [] }

/-- The live-data buffer produced by a sequence of received messages,
starting from the initial empty buffer. -/
def runWs (packageServerName : String)
    (messages : List (List (String × LiveSample))) : List (Option LiveSample) :=
  messages.foldl (fun buf msg => wsOnMessage packageServerName msg buf) []

/-! ## Definitions: Screen.js, the screen container -/

/-- Extended rationals with both Infinity and -Infinity, for the values
Math.min and Math.max produce on empty spread lists. -/
abbrev JsNum := WithBot (WithTop ℚ)

/-- A finite rational as a JsNum. -/
def JsNum.fin (q : ℚ) : JsNum := ((q : WithTop ℚ) : JsNum)

/-- Math.min over a spread list, starting from Infinity. -/
def jsMinList (l : List ℚ) : JsNum :=
  l.foldl (fun m x => min m (JsNum.fin x)) ((⊤ : WithTop ℚ) : JsNum)

/-- Math.max over a spread list, starting from -Infinity. -/
def jsMaxList (l : List ℚ) : JsNum :=
  l.foldl (fun m x => max m (JsNum.fin x)) ⊥

/-- A sample as returned by fetchData, before the timestamp has been
parsed: an ISO timestamp string plus sensor readings keyed by name. -/
structure RawSample where
  timestamp : String
  readings : List (String × ℚ)
deriving DecidableEq

/-- A sample after refresh has replaced its timestamp by
Date.parse(sample.timestamp), a Unix timestamp. -/
structure Sample where
  timestamp : ℚ
  readings : List (String × ℚ)
deriving DecidableEq

/-- One entry of chartOptions.sensors. -/
structure Sensor where
  name : String
  isSelected : Bool
  colour : Option String
deriving DecidableEq

/-- One entry of chartOptions.temperatureData. -/
structure TempSample where
  temperature : ℚ
  timestamp : ℚ
deriving DecidableEq

/-- The chartOptions useState record of Screen.js. -/
structure ChartOptions where
  sensors : List Sensor
  showTemperature : Bool
  temperatureData : List TempSample
deriving DecidableEq

/-- The modelOptions useState record of Screen.js.  colourMode is 0 for
adaptive and 1 for absolute; the scale entries may be infinite because
the adaptive scale comes from Math.min / Math.max over all readings. -/
structure ModelOptions where
  showContext : Bool
  colourMode : ℕ
  scale : JsNum × JsNum
deriving DecidableEq

/-- The screenState useState record of Screen.js.  startTime and endTime
begin as the empty string and are later Date objects; a Date is modelled
by its numeric value, and the initial non-Date placeholder by none. -/
structure ScreenStateRec where
  dataType : String
  liveDataType : String
  averagingWindow : String
  startTime : Option ℚ
  endTime : Option ℚ
deriving DecidableEq

/-- The full useState state of the Screen component, plus the list of
alerts shown so far (Alert.alert appends to it). -/
structure ScreenSt where
  data : List Sample
  mode : ℕ
  live : Bool
  liveData : List (Option LiveSample)
  liveMode : Bool
  dataRange : List JsNum
  isLoading : Bool
  screenState : ScreenStateRec
  chartOptions : ChartOptions
  modelOptions : ModelOptions
  alerts : List (String × String)
deriving DecidableEq

/-- The initial Screen state, from the useState initial values. -/
def initialScreenSt : ScreenSt :=
  { data := [], mode := 0, live := false, liveData := [], liveMode := false,
    dataRange := [], isLoading := false,
    screenState := { dataType := "", liveDataType := "str",
                     averagingWindow := "", startTime := none, endTime := none },
    chartOptions := { sensors := [], showTemperature := false, temperatureData := [] },
    modelOptions := { showContext := true, colourMode := 1,
                      scale := (JsNum.fin (-200), JsNum.fin 200) },
    alerts := [] }

/-- The environment a Screen render closes over: the props, the imported
constants from utils (not part of the sources, so kept abstract), and
the outcomes of the asynchronous fetches during the call under study. -/
structure ScreenEnv where
  packageServerName : String
  liveStatusPackages : List String
  chartColours : List String
  modelColourScale : String → JsNum × JsNum
  dateParse : String → ℚ
  fetchDataResult : Except String (List RawSample)
  fetchTemperatureDataResult : Except String (List TempSample)
  fetchSensorNamesResult : Except String (List String)

/-- The arguments of refresh(dataType, averagingWindow, startTime,
endTime); the two times are Dates, modelled by their numeric values. -/
structure RefreshArgs where
  dataType : String
  averagingWindow : String
  startTime : ℚ
  endTime : ℚ
deriving DecidableEq

/-- The sensor list built identically in refresh and setSensorNames:
sensorNames.map((sensorName, index) => ({ name, isSelected: index < 3,
colour: chartColours[index % chartColours.length] })). -/
def mkSensors (chartColours : List String) (sensorNames : List String) : List Sensor :=
  sensorNames.mapIdx fun index name =>
    { name := name, isSelected := decide (index < 3),
      colour := chartColours[index % chartColours.length]? }

/-- setSensorNames from Screen.js: on success it rebuilds
chartOptions.sensors (and turns showTemperature off); on failure it
shows the alert and drops back to historical mode. -/
def setSensorNames (env : ScreenEnv) (st : ScreenSt) : ScreenSt :=
  match env.fetchSensorNamesResult with
  | Except.ok sensorNames =>
      { st with chartOptions :=
          { st.chartOptions with
              showTemperature := false,
              sensors := mkSensors env.chartColours sensorNames } }
  | Except.error _ =>
      { st with
          alerts := st.alerts ++ [("Live data error", "Could not fetch sensor names")],
          liveMode := false }

/-- The try block of refresh, started after setIsLoading(true): returns
the state as updated so far together with the raised error, if any.
State writes happen in source order, so a failure of
fetchTemperatureData occurs after data, dataRange, mode and screenState
have already been written. -/
def refreshTry (env : ScreenEnv) (args : RefreshArgs) (st0 : ScreenSt) :
    ScreenSt × Option String :=
  match env.fetchDataResult with
  | Except.error e => (st0, some e)
  | Except.ok raw =>
    match raw with
    | [] => (st0, some "No data available for this time period")
    | r0 :: rrest =>
      let data := (r0 :: rrest).map fun s =>
        { timestamp := env.dateParse s.timestamp, readings := s.readings : Sample }
      let st1 := { st0 with data := data }
      let allReadings := data.foldl (fun acc s => acc ++ s.readings.map Prod.snd) []
      let dataRange := [jsMinList allReadings, jsMaxList allReadings]
      let st2 := { st1 with dataRange := dataRange }
      let st3 := if args.dataType = "raw" then { st2 with mode := 1 } else st2
      let st4 := { st3 with screenState :=
        { st3.screenState with
            dataType := args.dataType,
            averagingWindow := args.averagingWindow,
            startTime := some args.startTime,
            endTime := some args.endTime } }
      let sensorNames := r0.readings.map Prod.fst
      match env.fetchTemperatureDataResult with
      | Except.error e => (st4, some e)
      | Except.ok temps =>
        let st5 := { st4 with chartOptions :=
          { st4.chartOptions with
            sensors := mkSensors env.chartColours sensorNames,
            temperatureData := temps } }
        let st6 := { st5 with modelOptions :=
          { st5.modelOptions with scale :=
            if st5.modelOptions.colourMode ≠ 0 then
              env.modelColourScale args.dataType
            else
              (jsMinList allReadings, jsMaxList allReadings) } }
        (st6, none)

/-- refresh from Screen.js: sets isLoading, runs the try block, alerts
on a caught error, and finally clears isLoading. -/
def refresh (env : ScreenEnv) (args : RefreshArgs) (st : ScreenSt) : ScreenSt :=
  let stLoading := { st with isLoading := true }
  let result := refreshTry env args stLoading
  let stCaught :=
    match result.2 with
    | some e => { result.1 with alerts := result.1.alerts ++ [("Refresh error", e)] }
    | none => result.1
  { stCaught with isLoading := false }

/-- The liveStatus useEffect of Screen.js: recomputes live from the
context, applies the live-mode option resets, and drops back to
historical mode when the package is not live. -/
def liveStatusEffect (env : ScreenEnv) (st : ScreenSt) : ScreenSt :=
  let live := env.liveStatusPackages.contains env.packageServerName
  let st1 := { st with live := live }
  let st2 :=
    if st1.liveMode then
      let st2a := { st1 with modelOptions :=
        { st1.modelOptions with
            colourMode := 1,
            scale := env.modelColourScale st1.screenState.liveDataType } }
      let st2b := { st2a with chartOptions :=
        { st2a.chartOptions with showTemperature := false } }
      if st2b.screenState.liveDataType = "raw" then { st2b with mode := 1 } else st2b
    else st1
  if !live then { st2 with liveMode := false } else st2

/-- A concrete environment whose package is not reported live and whose
fetches all fail. -/
def offlineEnv : ScreenEnv :=
  { packageServerName := "p", liveStatusPackages := ["q"],
    chartColours := ["red", "green"],
    modelColourScale := fun _ => (JsNum.fin (-200), JsNum.fin 200),
    dateParse := fun _ => 0,
    fetchDataResult := Except.error "Network request failed",
    fetchTemperatureDataResult := Except.error "Network request failed",
    fetchSensorNamesResult := Except.error "Could not reach server" }

/-- A concrete environment where fetchData succeeds with one sample but
fetchTemperatureData fails. -/
def tempFailEnv : ScreenEnv :=
  { packageServerName := "p", liveStatusPackages := [],
    chartColours := ["red", "green"],
    modelColourScale := fun _ => (JsNum.fin (-200), JsNum.fin 200),
    dateParse := fun _ => 0,
    fetchDataResult := Except.ok [{ timestamp := "2020-01-01T00:00:00", readings := [("s1", 5)] }],
    fetchTemperatureDataResult := Except.error "Network request failed",
    fetchSensorNamesResult := Except.error "Could not reach server" }

/-- A concrete environment where fetchData succeeds with an empty list. -/
def emptyDataEnv : ScreenEnv :=
  { tempFailEnv with fetchDataResult := Except.ok [] }

/-- Concrete refresh arguments. -/
def sampleArgs : RefreshArgs :=
  { dataType := "str", averagingWindow := "1 hour", startTime := 0, endTime := 3600 }

/-- An environment whose fetches all succeed. -/
def okEnv : ScreenEnv :=
  { tempFailEnv with
      fetchDataResult := Except.ok
        [{ timestamp := "2020-01-01T00:00:00", readings := [("s1", 5), ("s2", 7)] }],
      fetchTemperatureDataResult := Except.ok [],
      fetchSensorNamesResult := Except.ok ["s1", "s2", "s3", "s4"] }

/-! ## Theorems -/

/-- The zoom bound of the Model component is preserved by every single
event. -/
theorem modelStep_zoom_bounded (st : ModelSt) (e : ModelEvent)
    (h : 1/5 < st.zoom ∧ st.zoom < 5) :
    1/5 < (modelStep st e).zoom ∧ (modelStep st e).zoom < 5 := by
  cases e with
  | pinch s =>
      simp only [modelStep, handlePinchGestureEvent]
      split
      · next hc => exact ⟨hc.2.1, hc.2.2⟩
      · exact h
  | pinchEnd => exact h
  | drag dx dy => exact h
  | reset => norm_num [modelStep]

/-- The zoom bound holds along every event sequence from the initial
state. -/
theorem runModel_zoom_bounded (events : List ModelEvent) :
    1/5 < (runModel events).zoom ∧ (runModel events).zoom < 5 := by
  suffices h : ∀ st : ModelSt, 1/5 < st.zoom ∧ st.zoom < 5 →
      1/5 < (events.foldl modelStep st).zoom ∧ (events.foldl modelStep st).zoom < 5 by
    exact h initialModelSt (by norm_num [initialModelSt])
  induction events with
  | nil => intro st hst; exact hst
  | cons e rest ih =>
      intro st hst
      exact ih (modelStep st e) (modelStep_zoom_bounded st e hst)

/-- C1: mapColour returns the hsl string with hue
(1 - (v - min)/(max - min)) * 270, saturation 100 and lightness 50 when
min < v < max, and grey for every other v, including v equal to min or
to max. -/
theorem c1_mapColour_spec (lo hi v : ℚ) :
    (lo < v ∧ v < hi →
      mapColour (lo, hi) v = Colour.hsl ((1 - (v - lo) / (hi - lo)) * 270) 100 50) ∧
    (¬ (lo < v ∧ v < hi) → mapColour (lo, hi) v = Colour.grey) := by
  constructor
  · intro h
    simp only [mapColour]
    rw [if_pos ⟨h.2, h.1⟩]
  · intro h
    simp only [mapColour]
    rw [if_neg]
    intro hc
    exact h ⟨hc.2, hc.1⟩

/-- Witness for C1 at concrete inputs: value 1 on scale [0, 2] is
coloured, value 2 (equal to max) is grey. -/
theorem c1_mapColour_spec_witness :
    mapColour (0, 2) 1 = Colour.hsl ((1 - (1 - 0) / (2 - 0)) * 270) 100 50 ∧
    mapColour (0, 2) 2 = Colour.grey :=
  ⟨(c1_mapColour_spec 0 2 1).1 (by norm_num),
   (c1_mapColour_spec 0 2 2).2 (by norm_num)⟩

/-- C4: each pinch event either sets zoom to baseZoom * scale ** 0.5 or
leaves the state unchanged, and for every sequence of events starting
from zoom = 1 the zoom stays strictly between 0.2 and 5. -/
theorem c4_pinch_zoom_bounded :
    (∀ (st : ModelSt) (s : ℚ),
       handlePinchGestureEvent st s = { st with zoom := st.baseZoom * s } ∨
       handlePinchGestureEvent st s = st) ∧
    (∀ events : List ModelEvent,
       1/5 < (runModel events).zoom ∧ (runModel events).zoom < 5) := by
  constructor
  · intro st s
    simp only [handlePinchGestureEvent]
    split
    · exact Or.inl rfl
    · exact Or.inr rfl
  · exact runModel_zoom_bounded

/-- C7: a drag with page deltas (dx, dy) replaces rotation (x, y) by
(x + dy/200, y + dx/200) and touches nothing else; Reset restores
rotation to Euler(0, 0); the z component is 0 in every reachable state. -/
theorem c7_orbit_rotation :
    (∀ (st : ModelSt) (dx dy : ℚ),
       (modelStep st (ModelEvent.drag dx dy)).rotation =
         mkEuler (st.rotation.x + dy / 200) (st.rotation.y + dx / 200) ∧
       (modelStep st (ModelEvent.drag dx dy)).zoom = st.zoom ∧
       (modelStep st (ModelEvent.drag dx dy)).baseZoom = st.baseZoom) ∧
    (∀ st : ModelSt, (modelStep st ModelEvent.reset).rotation = mkEuler 0 0) ∧
    (∀ events : List ModelEvent, (runModel events).rotation.z = 0) := by
  refine ⟨fun st dx dy => ⟨rfl, rfl, rfl⟩, fun st => rfl, ?_⟩
  intro events
  suffices h : ∀ st : ModelSt, st.rotation.z = 0 →
      (events.foldl modelStep st).rotation.z = 0 by
    exact h initialModelSt rfl
  induction events with
  | nil => intro st hst; exact hst
  | cons e rest ih =>
      intro st hst
      refine ih (modelStep st e) ?_
      cases e with
      | pinch s =>
          simp only [modelStep, handlePinchGestureEvent]
          split <;> simp [hst]
      | pinchEnd => exact hst
      | drag dx dy => rfl
      | reset => rfl

/-- A pan step never changes the timestamps. -/
theorem handleChartResponderMove_timestamps (st : ChartSt) (dx : ℚ) :
    (handleChartResponderMove st dx).timestamps = st.timestamps := by
  simp only [handleChartResponderMove]
  cases h0 : st.timestamps.head? <;> cases hl : st.timestamps.getLast? <;> simp
  split <;> rfl

/-- A pan step keeps the window inside the data. -/
theorem handleChartResponderMove_inside (st : ChartSt) (dx : ℚ) (t0 tl : ℚ)
    (h0 : st.timestamps.head? = some t0) (hl : st.timestamps.getLast? = some tl)
    (hmin : t0 ≤ st.minX) (hmax : st.maxX ≤ tl) :
    t0 ≤ (handleChartResponderMove st dx).minX ∧
    (handleChartResponderMove st dx).maxX ≤ tl := by
  simp only [handleChartResponderMove, h0, hl]
  split
  · next hc => exact ⟨hc.1, hc.2⟩
  · exact ⟨hmin, hmax⟩

/-- C5: the pan handler shifts both endpoints by the same amount and
applies the shift only when the new window still lies between the first
and the last timestamp; consequently a window that starts inside the
data stays inside the data after any sequence of pan events. -/
theorem c5_pan_stays_inside (st : ChartSt) (t0 tl : ℚ) (moves : List ℚ)
    (h0 : st.timestamps.head? = some t0) (hl : st.timestamps.getLast? = some tl)
    (hmin : t0 ≤ st.minX) (hmax : st.maxX ≤ tl) :
    t0 ≤ (moves.foldl handleChartResponderMove st).minX ∧
    (moves.foldl handleChartResponderMove st).maxX ≤ tl := by
  induction moves generalizing st with
  | nil => exact ⟨hmin, hmax⟩
  | cons dx rest ih =>
      have hts := handleChartResponderMove_timestamps st dx
      have hin := handleChartResponderMove_inside st dx t0 tl h0 hl hmin hmax
      exact ih (handleChartResponderMove st dx)
        (hts ▸ h0) (hts ▸ hl) hin.1 hin.2

/-- Witness for C5: a concrete chart state with timestamps [0, 10, 20],
window [0, 20], panned three times. -/
theorem c5_pan_stays_inside_witness :
    (0 : ℚ) ≤ (([4, -4, 100] : List ℚ).foldl handleChartResponderMove
      { timestamps := [0, 10, 20], width := 100, minX := 0, maxX := 20,
        baseRange := (0, 20), minInterval := (10 : ℚ) }).minX ∧
    (([4, -4, 100] : List ℚ).foldl handleChartResponderMove
      { timestamps := [0, 10, 20], width := 100, minX := 0, maxX := 20,
        baseRange := (0, 20), minInterval := (10 : ℚ) }).maxX ≤ 20 :=
  c5_pan_stays_inside _ 0 20 [4, -4, 100] rfl rfl (by norm_num) (by norm_num)

/-- C9: when the rejection guard fires, the pinch leaves the state
unchanged; with fewer than two timestamps the consecutive-difference
list is empty and minInterval is Infinity; and with minInterval equal to
Infinity every pinch is rejected, so zooming in is impossible. -/
theorem c9_pinch_guard (st : ChartSt) (scale focalX : ℚ) :
    (chartPinchRejected st scale focalX = true →
       handleChartPinch st scale focalX = st) ∧
    (∀ ts : List ℚ, ts.length ≤ 1 → minIntervalOf ts = ⊤) ∧
    (st.minInterval = ⊤ → handleChartPinch st scale focalX = st) := by
  have hreject : chartPinchRejected st scale focalX = true →
      handleChartPinch st scale focalX = st := by
    intro h
    simp only [chartPinchRejected, Bool.or_eq_true, decide_eq_true_eq] at h
    simp only [handleChartPinch]
    rw [if_pos h]
  refine ⟨hreject, ?_, ?_⟩
  · intro ts hts
    match ts with
    | [] => rfl
    | [a] => rfl
    | a :: b :: rest => simp only [List.length_cons] at hts; omega
  · intro hm
    apply hreject
    simp only [chartPinchRejected, Bool.or_eq_true, decide_eq_true_eq]
    left
    rw [hm, WithTop.mul_top (by norm_num)]
    exact WithTop.coe_lt_top _

/-- Witness for C9: a single-timestamp chart state rejects a concrete
pinch, and its minInterval computation yields Infinity. -/
theorem c9_pinch_guard_witness :
    handleChartPinch
      { timestamps := [(5 : ℚ)], width := 1, minX := 0, maxX := 1,
        baseRange := (0, 1), minInterval := ⊤ } 2 0 =
      { timestamps := [(5 : ℚ)], width := 1, minX := 0, maxX := 1,
        baseRange := (0, 1), minInterval := ⊤ } ∧
    minIntervalOf [(5 : ℚ)] = ⊤ :=
  ⟨(c9_pinch_guard
      { timestamps := [(5 : ℚ)], width := 1, minX := 0, maxX := 1,
        baseRange := (0, 1), minInterval := ⊤ } 2 0).2.2 rfl,
   (c9_pinch_guard
      { timestamps := [(5 : ℚ)], width := 1, minX := 0, maxX := 1,
        baseRange := (0, 1), minInterval := ⊤ } 2 0).2.1 [(5 : ℚ)] (by norm_num)⟩

/-- Counterexample to C6 as stated: on a buffer already holding 31
samples the handler does not append the selected sample, it resets the
buffer to that single sample. -/
theorem c6_counterexample :
    wsOnMessage "p" [("p", [("s", (2 : ℚ))])]
      (List.replicate 31 (some [("s", (1 : ℚ))])) ≠
    List.replicate 31 (some [("s", (1 : ℚ))]) ++
      [jsLookup [("p", [("s", (2 : ℚ))])] "p"] := by
  intro h
  have hlen := congrArg List.length h
  simp [wsOnMessage] at hlen

/-- C6 amended: the handler selects the entry keyed by
packageServerName from the parsed message without transforming it, and
appends it when the buffer holds at most 30 samples; with more than 30
samples it resets the buffer to just that sample; the effect cleanup
closes the socket and resets liveData to the empty list. -/
theorem c6_ws_passthrough (name : String) (msg : List (String × LiveSample))
    (buf : List (Option LiveSample)) :
    (buf.length ≤ 30 → wsOnMessage name msg buf = buf ++ [jsLookup msg name]) ∧
    (30 < buf.length → wsOnMessage name msg buf = [jsLookup msg name]) ∧
    (∀ st : WsState, (wsCleanup st).socketOpen = false ∧ (wsCleanup st).liveData = []) := by
  refine ⟨?_, ?_, fun st => ⟨rfl, rfl⟩⟩
  · intro h
    simp only [wsOnMessage]
    rw [if_neg (by omega)]
  · intro h
    simp only [wsOnMessage]
    rw [if_pos h]

/-- Witness for C6 amended at concrete buffers of length 0 and 31. -/
theorem c6_ws_passthrough_witness :
    wsOnMessage "p" [] [] = [] ++ [jsLookup [] "p"] ∧
    wsOnMessage "p" [] (List.replicate 31 none) = [jsLookup [] "p"] :=
  ⟨(c6_ws_passthrough "p" [] []).1 (by norm_num),
   (c6_ws_passthrough "p" [] (List.replicate 31 none)).2.1
     (by simp [List.length_replicate])⟩

/-- C8: every message either appends the selected sample (buffer at most
30) or resets the buffer to that one sample (buffer above 30), and the
buffer built from any sequence of messages never exceeds 31 samples. -/
theorem c8_liveData_bounded (name : String)
    (msgs : List (List (String × LiveSample))) :
    (runWs name msgs).length ≤ 31 ∧
    (∀ (msg : List (String × LiveSample)) (buf : List (Option LiveSample)),
       (buf.length ≤ 30 ∧ wsOnMessage name msg buf = buf ++ [jsLookup msg name]) ∨
       (30 < buf.length ∧ wsOnMessage name msg buf = [jsLookup msg name])) := by
  constructor
  · simp only [runWs]
    suffices h : ∀ buf : List (Option LiveSample), buf.length ≤ 31 →
        (msgs.foldl (fun buf msg => wsOnMessage name msg buf) buf).length ≤ 31 by
      exact h [] (by norm_num)
    induction msgs with
    | nil => intro buf hb; exact hb
    | cons m rest ih =>
        intro buf hb
        simp only [List.foldl_cons]
        refine ih _ ?_
        simp only [wsOnMessage]
        split
        · simp
        · next hc =>
            simp only [List.length_append, List.length_cons, List.length_nil]
            omega
  · intro msg buf
    by_cases hb : buf.length ≤ 30
    · refine Or.inl ⟨hb, ?_⟩
      simp only [wsOnMessage]
      rw [if_neg (by omega)]
    · refine Or.inr ⟨by omega, ?_⟩
      simp only [wsOnMessage]
      rw [if_pos (by omega)]

/-- C3: after the liveStatus effect runs, liveMode implies live: when
the live packages do not contain the package server name the effect
forces liveMode to false, and whenever liveMode survives the effect the
package is live. -/
theorem c3_liveMode_implies_live (env : ScreenEnv) (st : ScreenSt) :
    (env.liveStatusPackages.contains env.packageServerName = false →
       (liveStatusEffect env st).liveMode = false) ∧
    ((liveStatusEffect env st).liveMode = true →
       (liveStatusEffect env st).live = true) := by
  have hnotlive : env.liveStatusPackages.contains env.packageServerName = false →
      (liveStatusEffect env st).liveMode = false := by
    intro h
    simp only [liveStatusEffect, h, Bool.not_false, if_true]
  have hlive : env.liveStatusPackages.contains env.packageServerName = true →
      (liveStatusEffect env st).live = true := by
    intro h
    simp only [liveStatusEffect, h, Bool.not_true, Bool.false_eq_true, if_false]
    split
    · split <;> rfl
    · rfl
  refine ⟨hnotlive, ?_⟩
  intro h
  by_cases hc : env.liveStatusPackages.contains env.packageServerName = true
  · exact hlive hc
  · rw [Bool.not_eq_true] at hc
    rw [hnotlive hc] at h
    exact absurd h (by decide)

/-- Witness for C3: with live packages [q] and package server name p the
effect leaves liveMode false. -/
theorem c3_liveMode_implies_live_witness :
    (liveStatusEffect offlineEnv initialScreenSt).liveMode = false :=
  (c3_liveMode_implies_live offlineEnv initialScreenSt).1 (by decide)

/-- Counterexample to C2 as stated: when fetchTemperatureData fails the
refresh raises an alert (so it fails), yet data, dataRange and
screenState have already been overwritten and differ from their values
before the call. -/
theorem c2_counterexample :
    (refresh tempFailEnv sampleArgs initialScreenSt).alerts =
      [("Refresh error", "Network request failed")] ∧
    initialScreenSt.data = [] ∧
    (refresh tempFailEnv sampleArgs initialScreenSt).data ≠ [] ∧
    (refresh tempFailEnv sampleArgs initialScreenSt).screenState ≠
      initialScreenSt.screenState ∧
    (refresh tempFailEnv sampleArgs initialScreenSt).dataRange ≠
      initialScreenSt.dataRange := by
  refine ⟨rfl, rfl, ?_, ?_, ?_⟩ <;> decide

/-- C2 amended: a fetchData failure or an empty result set only appends
an alert and clears isLoading, leaving all other state untouched; a
fetchTemperatureData failure still only alerts and clears isLoading and
leaves chartOptions and modelOptions untouched, but occurs after data,
dataRange, mode and screenState were already written; a fetchSensorNames
failure alerts and additionally drops back to historical mode. -/
theorem c2_error_handling (env : ScreenEnv) (args : RefreshArgs) (st : ScreenSt) :
    (∀ e, env.fetchDataResult = Except.error e →
       refresh env args st =
         { st with isLoading := false,
                   alerts := st.alerts ++ [("Refresh error", e)] }) ∧
    (env.fetchDataResult = Except.ok [] →
       refresh env args st =
         { st with isLoading := false,
                   alerts := st.alerts ++
                     [("Refresh error", "No data available for this time period")] }) ∧
    (∀ r0 rrest e, env.fetchDataResult = Except.ok (r0 :: rrest) →
       env.fetchTemperatureDataResult = Except.error e →
       (refresh env args st).chartOptions = st.chartOptions ∧
       (refresh env args st).modelOptions = st.modelOptions ∧
       (refresh env args st).isLoading = false ∧
       (refresh env args st).alerts = st.alerts ++ [("Refresh error", e)]) ∧
    (∀ e, env.fetchSensorNamesResult = Except.error e →
       setSensorNames env st =
         { st with liveMode := false,
                   alerts := st.alerts ++
                     [("Live data error", "Could not fetch sensor names")] }) := by
  refine ⟨?_, ?_, ?_, ?_⟩
  · intro e he
    simp only [refresh, refreshTry, he]
  · intro he
    simp only [refresh, refreshTry, he]
  · intro r0 rrest e hd ht
    simp only [refresh, refreshTry, hd, ht]
    refine ⟨?_, ?_, ?_, ?_⟩ <;> first | trivial | (split <;> rfl)
  · intro e he
    simp only [setSensorNames, he]

/-- Witness for C2 amended, at the concrete environments above. -/
theorem c2_error_handling_witness :
    refresh offlineEnv sampleArgs initialScreenSt =
      { initialScreenSt with
          isLoading := false,
          alerts := initialScreenSt.alerts ++
            [("Refresh error", "Network request failed")] } ∧
    refresh emptyDataEnv sampleArgs initialScreenSt =
      { initialScreenSt with
          isLoading := false,
          alerts := initialScreenSt.alerts ++
            [("Refresh error", "No data available for this time period")] } ∧
    (refresh tempFailEnv sampleArgs initialScreenSt).chartOptions =
      initialScreenSt.chartOptions ∧
    (refresh tempFailEnv sampleArgs initialScreenSt).modelOptions =
      initialScreenSt.modelOptions ∧
    setSensorNames offlineEnv initialScreenSt =
      { initialScreenSt with
          liveMode := false,
          alerts := initialScreenSt.alerts ++
            [("Live data error", "Could not fetch sensor names")] } :=
  ⟨(c2_error_handling offlineEnv sampleArgs initialScreenSt).1
      "Network request failed" rfl,
   (c2_error_handling emptyDataEnv sampleArgs initialScreenSt).2.1 rfl,
   ((c2_error_handling tempFailEnv sampleArgs initialScreenSt).2.2.1
      ({ timestamp := "2020-01-01T00:00:00", readings := [("s1", 5)] } : RawSample) []
      "Network request failed" rfl rfl).1,
   ((c2_error_handling tempFailEnv sampleArgs initialScreenSt).2.2.1
      ({ timestamp := "2020-01-01T00:00:00", readings := [("s1", 5)] } : RawSample) []
      "Network request failed" rfl rfl).2.1,
   (c2_error_handling offlineEnv sampleArgs initialScreenSt).2.2.2
      "Could not reach server" rfl⟩

/-- C10: the rebuilt sensor list has one entry per sensor name; the
entry at position i keeps the name, is selected exactly when i < 3 (so
exactly the first min(n, 3) sensors are selected) and gets colour
chartColours[i mod length chartColours]; and both a successful refresh
and a successful sensor-name fetch install exactly this list. -/
theorem c10_sensor_selection (colours names : List String) (i : ℕ)
    (h : i < names.length) :
    (mkSensors colours names).length = names.length ∧
    (∀ h2 : i < (mkSensors colours names).length,
       (mkSensors colours names).get ⟨i, h2⟩ =
         { name := names.get ⟨i, h⟩, isSelected := decide (i < 3),
           colour := colours[i % colours.length]? }) ∧
    (∀ (env : ScreenEnv) (args : RefreshArgs) (st : ScreenSt) r0 rrest temps,
       env.fetchDataResult = Except.ok (r0 :: rrest) →
       env.fetchTemperatureDataResult = Except.ok temps →
       (refresh env args st).chartOptions.sensors =
         mkSensors env.chartColours (r0.readings.map Prod.fst)) ∧
    (∀ (env : ScreenEnv) (st : ScreenSt) ns,
       env.fetchSensorNamesResult = Except.ok ns →
       (setSensorNames env st).chartOptions.sensors =
         mkSensors env.chartColours ns) := by
  refine ⟨?_, ?_, ?_, ?_⟩
  · simp [mkSensors, List.length_mapIdx]
  · intro h2
    exact List.get_mapIdx names
      (fun index name =>
        ({ name := name, isSelected := decide (index < 3),
           colour := colours[index % colours.length]? } : Sensor)) i h
  · intro env args st r0 rrest temps hd ht
    simp only [refresh, refreshTry, hd, ht]
  · intro env st ns hn
    simp only [setSensorNames, hn]

/-- Witness for C10 at concrete inputs: sensor 3 of four fetched names
is not selected and wraps around the two chart colours. -/
theorem c10_sensor_selection_witness :
    (mkSensors ["red", "green"] ["s1", "s2", "s3", "s4"]).get ⟨3, by decide⟩ =
      { name := ["s1", "s2", "s3", "s4"].get ⟨3, by decide⟩,
        isSelected := decide (3 < 3),
        colour := ["red", "green"][3 % (["red", "green"] : List String).length]? } ∧
    (setSensorNames okEnv initialScreenSt).chartOptions.sensors =
      mkSensors okEnv.chartColours ["s1", "s2", "s3", "s4"] :=
  ⟨(c10_sensor_selection ["red", "green"] ["s1", "s2", "s3", "s4"] 3
      (by decide)).2.1 (by decide),
   (c10_sensor_selection ["red", "green"] ["s1", "s2", "s3", "s4"] 3
      (by decide)).2.2.2 okEnv initialScreenSt ["s1", "s2", "s3", "s4"] rfl⟩

end Nrfis
